import Mathlib

/-!
Shallow embedding of the data-access and AI-orchestration core of the
IFHE campus-assistant portal (TypeScript sources: `src/lib/sheets.ts`,
`src/lib/ai.ts`, `src/lib/auth.ts`, `src/routes/register.ts`,
`src/routes/chat.ts`).

Conventions of the embedding:
* JavaScript strings are Lean `String`s; manipulation is done on the
  underlying `List Char` so that everything evaluates in the kernel.
* `Date.now()` instants and date values are `Int` milliseconds, passed in
  explicitly; `new Date(s)` parsing is an external primitive modelled by a
  valuation parameter `dateVal : String → Int`.
* Network calls are modelled by explicit parameters carrying the remote
  answer (`Option`/`Except` values); a thrown JS exception that the source
  catches and converts is modelled by the corresponding error value.
* Side-effect traces that the claims talk about (how many token exchanges
  were performed, how many API calls were made, which providers were
  invoked) are returned as extra fields of the result structures.
-/

namespace IFHE

/-- JS whitespace (the ASCII part of `\s` / `String.prototype.trim`):
space, tab, newline, carriage return, vertical tab, form feed. -/
def isJsSpace (c : Char) : Bool :=
  c = ' ' || c = '\t' || c = '\n' || c = '\x0d' || c = '\x0b' || c = '\x0c'

/-- `String.prototype.trim`, modelled charwise. -/
def jsTrim (s : String) : String :=
  ⟨((s.data.dropWhile isJsSpace).reverse.dropWhile isJsSpace).reverse⟩

/-- `String.prototype.toLowerCase`, modelled charwise (ASCII). -/
def jsLower (s : String) : String :=
  ⟨s.data.map Char.toLower⟩

/-- `needle` occurs as a contiguous substring of `hay`. -/
def hasSubstring : List Char → List Char → Bool
  | [], sub => sub.isEmpty
  | h :: t, sub => sub.isPrefixOf (h :: t) || hasSubstring t sub

/-- String-level contiguous-substring test. -/
def strContains (s sub : String) : Bool :=
  hasSubstring s.data sub.data

/-- The apostrophe character, kept out of string literals. -/
def apos : String := (Char.ofNat 39).toString

/-- The backtick character, kept out of string literals. -/
def btick : String := (Char.ofNat 96).toString

/-! ## AI fallback orchestrator (`src/lib/ai.ts`, class `AIService`) -/

/-- One Google-CSE search hit (`SearchResult` in `src/types.ts`). -/
structure SearchResult where
  title : String
  link : String
  snippet : String
deriving Repr, DecidableEq

/-- JS truthiness of a nullable string: `null` and the empty string are
falsy, everything else truthy.  This is how `AIService.answer` tests
`if (response)` on each provider result. -/
def truthy (r : Option String) : Bool :=
  r.getD "" ≠ ""

/-- The fixed fallback text of `AIService.getErrorMessage`. -/
def errorMessage : String :=
  "I apologize, but I" ++ apos ++ "m currently unable to process your question due to technical issues. Please try again in a moment or contact IFHE administration directly for immediate assistance.\n\nüè´ **IFHE Hyderabad Contact:**\n- Website: https://ifheindia.org\n- Phone: +91-40-xxxx-xxxx\n- Email: info@ifheindia.org\n\n<small><em>Our AI assistant will be back online shortly. Thank you for your patience!</em></small>"

/-- Result of `AIService.answer`, extended with the instrumentation field
`invoked`: the providers actually called, in call order. -/
structure AnswerOut where
  response : String
  model : String
  sourceLinks : List SearchResult
  invoked : List String
deriving Repr, DecidableEq

/-- `AIService.answer`: sequential fallback over the three providers.
`gemini`, `groq`, `openRouter` are the values the corresponding `askX`
helpers would return for this question (`none` models both a missing API
key and a caught exception; each helper catches its own errors and
returns `null`).  The source tests each result with JS truthiness, so an
empty-string answer also falls through to the next provider. -/
def answer (searchResults : List SearchResult) (gemini groq openRouter : Option String) :
    AnswerOut :=
  if truthy gemini then
    ⟨gemini.getD "", "gemini-1.5-flash", searchResults, ["gemini"]⟩
  else if truthy groq then
    ⟨groq.getD "", "deepseek-r1-distill-llama-70b", searchResults, ["gemini", "groq"]⟩
  else if truthy openRouter then
    ⟨openRouter.getD "", "qwen2.5-14b-instruct", searchResults,
      ["gemini", "groq", "openrouter"]⟩
  else
    ⟨errorMessage, "none", searchResults, ["gemini", "groq", "openrouter"]⟩

/-! ### `AIService.formatHTML`

The markdown conversion applies, in order, the four global regex
replacements `\*\*(.*?)\*\*` → `<strong>$1</strong>`, `\*(.*?)\*` →
`<em>$1</em>`, `\n` → `<br>`, and a backtick pair → `<code>$1</code>`.
`.` in a JS regex does not match a newline and `.*?` is lazy, so a
delimited span is the shortest delimiter-to-delimiter stretch on one
line.  `pairReplaceAux` reproduces the regex engine: at each position,
if the delimiter starts here and a closing delimiter occurs before the
next newline, emit the replacement and continue after the match;
otherwise move forward one character. -/

/-- Find the lazy closing delimiter: split `l` as `content ++ d ++ rest`
where `content` contains neither `d` (as a prefix anywhere earlier) nor a
newline; `none` when no closing `d` occurs before a newline. -/
def splitAtSub (d : List Char) : List Char → Option (List Char × List Char)
  | [] => none
  | c :: rest =>
    if d.isPrefixOf (c :: rest) then some ([], (c :: rest).drop d.length)
    else if c = '\n' then none
    else
      match splitAtSub d rest with
      | some (content, after) => some (c :: content, after)
      | none => none

/-- One regex-engine pass for a paired delimiter `d`; `fuel` only needs to
be at least the input length (every step consumes at least one input
character), and is instantiated with the length by `pairReplace`. -/
def pairReplaceAux (d openT closeT : List Char) : Nat → List Char → List Char
  | 0, l => l
  | _ + 1, [] => []
  | fuel + 1, c :: rest =>
    if d.isPrefixOf (c :: rest) then
      match splitAtSub d ((c :: rest).drop d.length) with
      | some (content, after) =>
          openT ++ content ++ closeT ++ pairReplaceAux d openT closeT fuel after
      | none => c :: pairReplaceAux d openT closeT fuel rest
    else c :: pairReplaceAux d openT closeT fuel rest

/-- `s.replace(/d(.*?)d/g, openT $1 closeT)` for a literal delimiter `d`. -/
def pairReplace (d openT closeT : String) (s : String) : String :=
  ⟨pairReplaceAux d.data openT.data closeT.data s.data.length s.data⟩

/-- `s.replace(/\n/g, rep)`. -/
def replaceNewlines (rep : String) (s : String) : String :=
  ⟨(s.data.map fun c => if c = '\n' then rep.data else [c]).flatten⟩

/-- The markdown-subset-to-HTML conversion chain of `formatHTML`. -/
def mdToHtml (text : String) : String :=
  pairReplace btick ("<code>") ("</code>")
    (replaceNewlines ("<br>")
      (pairReplace ("*") ("<em>") ("</em>")
        (pairReplace ("**") ("<strong>") ("</strong>") text)))

/-- One `<li>` entry of the useful-links section. -/
def linkItem (l : SearchResult) : String :=
  "<li><a href=\"" ++ l.link ++ "\" target=\"_blank\" rel=\"noopener noreferrer\">" ++
    l.title ++ "</a></li>"

/-- The links section appended by `formatHTML` when `sourceLinks.length > 0`. -/
def linksSection (sourceLinks : List SearchResult) : String :=
  if sourceLinks.length > 0 then
    "<br><br><strong>üìö Useful Links:</strong><ul>" ++
      String.join (sourceLinks.map linkItem) ++ "</ul>"
  else ""

/-- The fixed disclaimer `formatHTML` always appends. -/
def disclaimer : String :=
  "<br><br><small><em>üí° This information is generated by AI and may not be completely accurate. For official information, please verify with IFHE administration or check the official website.</em></small>"

/-- `AIService.formatHTML`. -/
def formatHTML (text : String) (sourceLinks : List SearchResult) : String :=
  mdToHtml text ++ linksSection sourceLinks ++ disclaimer

/-! ## Input validation helpers (`src/lib/auth.ts`) -/

/-- `validateRequired`: `null`/`undefined` and all-whitespace strings are
rejected ("" is JS-falsy, and is also caught by the trim test). -/
def validateRequired (v : Option String) (fieldName : String) : Option String :=
  match v with
  | none => some (fieldName ++ " is required")
  | some s => if jsTrim s = "" then some (fieldName ++ " is required") else none

/-- Split a character list at every occurrence of `c` (like
`String.prototype.split` on a single-character separator). -/
def splitChar (c : Char) : List Char → List (List Char)
  | [] => [[]]
  | x :: xs =>
    let r := splitChar c xs
    if x = c then [] :: r
    else
      match r with
      | h :: t => (x :: h) :: t
      | [] => [[x]]

/-- `validateEmail`, the regex `/^[^\s@]+@[^\s@]+\.[^\s@]+$/`: the string
matches iff it has exactly one `@`, a nonempty local part, no whitespace
anywhere, and after the `@` a dot that is neither the first nor the last
character of the domain part (the two `[^\s@]+` around `\.` are nonempty,
and with backtracking any interior dot witnesses a match).  The JS `\s`
class also covers non-ASCII spaces; this model restricts it to the ASCII
whitespace of `isJsSpace`. -/
def validateEmail (s : String) : Bool :=
  match splitChar '@' s.data with
  | [lo, dom] =>
      (! lo.isEmpty) && (lo ++ dom).all (fun c => ! isJsSpace c) &&
        ((dom.drop 1).dropLast.contains '.')
  | _ => false

/-- The phone regex `/^[\+]?[1-9][\d]{0,15}$/` of the register route. -/
def validPhone (s : String) : Bool :=
  let cs :=
    match s.data with
    | '+' :: rest => rest
    | cs => cs
  match cs with
  | [] => false
  | d :: rest => ('1' ≤ d && d ≤ '9') && rest.all (·.isDigit) && rest.length ≤ 15

/-! ## Decimal rendering of numbers (JS number-to-string for naturals) -/

/-- Digit character for `n % 10`. -/
def digitChar (n : Nat) : Char := Char.ofNat (48 + n % 10)

/-- Fuel-driven decimal rendering; `fuel ≥ 1 + n` always suffices since
the argument shrinks by a factor of ten per step. -/
def natDecimalAux : Nat → Nat → List Char
  | 0, _ => []
  | fuel + 1, n => if n < 10 then [digitChar n] else natDecimalAux fuel (n / 10) ++ [digitChar (n % 10)]

/-- Decimal rendering of a natural number. -/
def natDecimal (n : Nat) : String := ⟨natDecimalAux (n + 1) n⟩

/-! ## Token cache and signer (`src/lib/sheets.ts`, `GoogleSheetsService`) -/

/-- The mutable token-cache fields of `GoogleSheetsService`
(`accessToken?: string`, `tokenExpiry?: number`, milliseconds). -/
structure TokenState where
  accessToken : Option String
  tokenExpiry : Option Int
deriving Repr, DecidableEq

/-- Outcome of `getAccessToken`, with the number of token-endpoint
exchanges performed (0 or 1). -/
structure TokenAttempt where
  result : Except String (String × TokenState)
  exchanges : Nat
deriving Repr

/-- `GoogleSheetsService.getAccessToken`.  The cached token is reused iff
`accessToken && tokenExpiry && Date.now() < tokenExpiry` (JS truthiness:
an empty-string token or a zero expiry is falsy, modelled via `getD`).
Otherwise, if the service-account credentials are configured, one
exchange is attempted: `exchange` carries the token endpoint's answer
`(access_token, expires_in seconds)`, and the new expiry is stored as
`Date.now() + expires_in * 1000 - 60000` (one-minute safety buffer).  A
rejected exchange (or one that throws) surfaces as `Authentication
failed`. -/
def getAccessToken (credsConfigured : Bool) (st : TokenState) (now : Int)
    (exchange : Except String (String × Int)) : TokenAttempt :=
  if st.accessToken.getD "" ≠ "" ∧ st.tokenExpiry.getD 0 ≠ 0 ∧ now < st.tokenExpiry.getD 0 then
    ⟨.ok (st.accessToken.getD "", st), 0⟩
  else if ¬ credsConfigured then
    ⟨.error "Google service account credentials not configured", 0⟩
  else
    match exchange with
    | .ok (tok, expiresIn) =>
        ⟨.ok (tok, ⟨some tok, some (now + expiresIn * 1000 - 60000)⟩), 1⟩
    | .error _ => ⟨.error "Authentication failed", 1⟩

/-- Trace of one `appendRow`/`readRange`/`updateRange` call: its result,
the token-cache state afterwards, the number of token exchanges, and the
number of Sheets-API calls made. -/
structure SheetsCallResult (α : Type) where
  result : Except String α
  state : TokenState
  exchanges : Nat
  apiCalls : Nat
deriving Repr

/-- `GoogleSheetsService.appendRow`: configuration check, one token
acquisition, then exactly one API call; a non-ok response (e.g. a
rejected bearer credential) throws `Failed to append row` with no retry.
`apiAccepts` tells whether the Sheets API accepts the presented token. -/
def appendRow (sheetIdConfigured credsConfigured : Bool) (st : TokenState) (now : Int)
    (exchange : Except String (String × Int)) (apiAccepts : String → Bool) :
    SheetsCallResult Unit :=
  if ¬ sheetIdConfigured then ⟨.error "Google Sheet ID not configured", st, 0, 0⟩
  else
    match getAccessToken credsConfigured st now exchange with
    | ⟨.error e, n⟩ => ⟨.error e, st, n, 0⟩
    | ⟨.ok (tok, st1), n⟩ =>
      if apiAccepts tok then ⟨.ok (), st1, n, 1⟩
      else ⟨.error "Failed to append row", st1, n, 1⟩

/-- `GoogleSheetsService.readRange`: same skeleton as `appendRow`; on an
ok response the rows are `data.values || []` (`apiData` returns the
response per presented token, `none` modelling a missing `values`
field). -/
def readRange (sheetIdConfigured credsConfigured : Bool) (st : TokenState) (now : Int)
    (exchange : Except String (String × Int))
    (apiData : String → Except String (Option (List (List String)))) :
    SheetsCallResult (List (List String)) :=
  if ¬ sheetIdConfigured then ⟨.error "Google Sheet ID not configured", st, 0, 0⟩
  else
    match getAccessToken credsConfigured st now exchange with
    | ⟨.error e, n⟩ => ⟨.error e, st, n, 0⟩
    | ⟨.ok (tok, st1), n⟩ =>
      match apiData tok with
      | .ok values => ⟨.ok (values.getD []), st1, n, 1⟩
      | .error _ => ⟨.error "Failed to read range", st1, n, 1⟩

/-- `GoogleSheetsService.updateRange`: same skeleton as `appendRow`. -/
def updateRange (sheetIdConfigured credsConfigured : Bool) (st : TokenState) (now : Int)
    (exchange : Except String (String × Int)) (apiAccepts : String → Bool) :
    SheetsCallResult Unit :=
  if ¬ sheetIdConfigured then ⟨.error "Google Sheet ID not configured", st, 0, 0⟩
  else
    match getAccessToken credsConfigured st now exchange with
    | ⟨.error e, n⟩ => ⟨.error e, st, n, 0⟩
    | ⟨.ok (tok, st1), n⟩ =>
      if apiAccepts tok then ⟨.ok (), st1, n, 1⟩
      else ⟨.error "Failed to update range", st1, n, 1⟩

/-! ## Base64url and the service-account JWT (`createJWT`) -/

/-- The base64url alphabet: standard base64 with `+`/`/` replaced by
`-`/`_` (the source encodes with `btoa` and then substitutes, and strips
the `=` padding). -/
def b64Alphabet : List Char :=
  ("ABCDEFGHIJKLMNOPQRSTUVWXYZabcdefghijklmnopqrstuvwxyz0123456789-_").data

/-- The `n`-th base64url character (only used with `n < 64`). -/
def b64Char (n : Nat) : Char := b64Alphabet.getD n ('A')

/-- `base64urlEncode` of `GoogleSheetsService`: base64 of a byte
sequence, with url-safe characters and no padding. -/
def base64urlEncode : List Nat → List Char
  | [] => []
  | [a] => [b64Char (a / 4), b64Char (a % 4 * 16)]
  | [a, b] => [b64Char (a / 4), b64Char (a % 4 * 16 + b / 16), b64Char (b % 16 * 4)]
  | a :: b :: c :: rest =>
      b64Char (a / 4) :: b64Char (a % 4 * 16 + b / 16) :: b64Char (b % 16 * 4 + c / 64) ::
        b64Char (c % 64) :: base64urlEncode rest

/-- Index of a character in the base64url alphabet. -/
def b64Value (c : Char) : Nat := b64Alphabet.indexOf c

/-- Base64url decoding (for unpadded input lengths `0,2,3 mod 4`). -/
def base64urlDecode : List Char → List Nat
  | [] => []
  | [_] => []
  | [c1, c2] => [b64Value c1 * 4 + b64Value c2 / 16]
  | [c1, c2, c3] =>
      [b64Value c1 * 4 + b64Value c2 / 16, b64Value c2 % 16 * 16 + b64Value c3 / 4]
  | c1 :: c2 :: c3 :: c4 :: rest =>
      (b64Value c1 * 4 + b64Value c2 / 16) ::
        (b64Value c2 % 16 * 16 + b64Value c3 / 4) ::
        (b64Value c3 % 4 * 64 + b64Value c4) :: base64urlDecode rest

/-- `TextEncoder.encode`, restricted to ASCII inputs, where UTF-8 is the
identity on code points. -/
def asciiBytes (s : String) : List Nat := s.data.map Char.toNat

/-- `JSON.stringify` of the fixed JWT header `{alg: RS256, typ: JWT}`
(insertion order, no spaces). -/
def headerJSON : String := "\x7b\"alg\":\"RS256\",\"typ\":\"JWT\"\x7d"

/-- `JSON.stringify` of the JWT claim set built by `createJWT`: issuer,
fixed spreadsheets scope, fixed token-endpoint audience,
`exp = now + 3600`, `iat = now` (insertion order, no spaces; assumes the
email needs no JSON escaping). -/
def payloadJSON (email : String) (now : Nat) : String :=
  "\x7b\"iss\":\"" ++ email ++
    "\",\"scope\":\"https://www.googleapis.com/auth/spreadsheets\",\"aud\":\"https://oauth2.googleapis.com/token\",\"exp\":" ++
    natDecimal (now + 3600) ++ ",\"iat\":" ++ natDecimal now ++ "\x7d"

/-- `GoogleSheetsService.createJWT`: base64url header and payload joined
by dots, followed by the base64url RSA-SHA256 signature.  The signature
bytes are produced by WebCrypto over the unsigned token with the
imported PEM key; they are an opaque byte sequence here (`signature`),
which quantifies over all keys. -/
def createJWT (email : String) (now : Nat) (signature : List Nat) : String :=
  let headerB64 : String := ⟨base64urlEncode (asciiBytes headerJSON)⟩
  let payloadB64 : String := ⟨base64urlEncode (asciiBytes (payloadJSON email now))⟩
  headerB64 ++ "." ++ payloadB64 ++ "." ++ (⟨base64urlEncode signature⟩ : String)

/-! ## Rate limiter (`src/lib/auth.ts`, `AuthService.checkRateLimit`) -/

/-- One per-identity entry of the in-memory rate-limit store. -/
structure RateRecord where
  count : Nat
  resetTime : Int
deriving Repr, DecidableEq

/-- `AuthService.checkRateLimit` for one identity: lazily reset the
window when there is no record or `now > resetTime`, increment the
count, and allow iff `count <= maxRequests`.  Returns the decision and
the stored record. -/
def checkRateLimit (store : Option RateRecord) (now : Int) (maxRequests : Nat)
    (windowMs : Int) : Bool × RateRecord :=
  let record :=
    match store with
    | some r => if now > r.resetTime then RateRecord.mk 0 (now + windowMs) else r
    | none => RateRecord.mk 0 (now + windowMs)
  let record := RateRecord.mk (record.count + 1) record.resetTime
  (record.count ≤ maxRequests, record)

/-- A sequence of `checkRateLimit` calls from one identity at the given
instants, threading the stored record; returns the decisions in order
and the final record. -/
def runCalls (maxRequests : Nat) (windowMs : Int) :
    Option RateRecord → List Int → List Bool × Option RateRecord
  | st, [] => ([], st)
  | st, t :: ts =>
    let step := checkRateLimit st t maxRequests windowMs
    let rest := runCalls maxRequests windowMs (some step.2) ts
    (step.1 :: rest.1, rest.2)

/-! ## Events repository (`GoogleSheetsService.getEvents`) -/

/-- The `Event` record of `src/types.ts`. -/
structure Event where
  id : String
  title : String
  description : String
  date_iso : String
  location : String
  rsvp_form : String
  visible : Bool
  created_at : String
deriving Repr, DecidableEq

/-- `row[i] || dflt`: a missing or empty cell falls back to the default
(the empty string is JS-falsy). -/
def cellD (row : List String) (i : Nat) (dflt : String) : String :=
  match row.get? i with
  | some s => if s = "" then dflt else s
  | none => dflt

/-- The positional row-to-`Event` mapping of `getEvents` for the row at
index `i`: most missing cells default to the empty string, but a missing
or empty `id` cell defaults to `event_<i>` and a missing or empty
`created_at` cell defaults to the current timestamp (`nowIso`);
`visible` is the `row[6] === 'TRUE'` test (rows read from the API are
strings, so the `row[6] === true` disjunct of the source can never
hold). -/
def rowToEvent (nowIso : String) (i : Nat) (row : List String) : Event :=
  { id := cellD row 0 ("event_" ++ natDecimal i)
    title := cellD row 1 ""
    description := cellD row 2 ""
    date_iso := cellD row 3 ""
    location := cellD row 4 ""
    rsvp_form := cellD row 5 ""
    visible := row.get? 6 == some ("TRUE")
    created_at := cellD row 7 nowIso }

/-- The row mapping exactly as claim C8 words it, for comparison with the
source's `rowToEvent`: every missing cell defaults to the empty string
(and `visible` to false). -/
def rowToEventSpec (row : List String) : Event :=
  { id := row.getD 0 ""
    title := row.getD 1 ""
    description := row.getD 2 ""
    date_iso := row.getD 3 ""
    location := row.getD 4 ""
    rsvp_form := row.getD 5 ""
    visible := row.get? 6 == some ("TRUE")
    created_at := row.getD 7 "" }

/-- The pre-sort candidate list of `getEvents`: every non-header row that
is nonempty, mapped through `rowToEvent`, kept iff visible and dated no
earlier than now. -/
def eventCandidates (dateVal : String → Int) (now : Int) (nowIso : String)
    (rows : List (List String)) : List Event :=
  (rows.enum.drop 1).filterMap fun p =>
    if p.2.length = 0 then none
    else
      let e := rowToEvent nowIso p.1 p.2
      if e.visible && decide (now ≤ dateVal e.date_iso) then some e else none

/-- `GoogleSheetsService.getEvents` (given a successful `readRange`):
empty or header-only tables give `[]`; otherwise the candidate rows are
sorted ascending by date.  `dateVal` models `new Date(s).getTime()`; the
stable JS `Array.sort` with comparator `dateA - dateB` is modelled by
insertion sort on the date valuation. -/
def getEvents (dateVal : String → Int) (now : Int) (nowIso : String)
    (rows : List (List String)) : List Event :=
  if rows.length ≤ 1 then []
  else
    List.insertionSort (fun a b => dateVal a.date_iso ≤ dateVal b.date_iso)
      (eventCandidates dateVal now nowIso rows)

/-! ## Registration route (`src/routes/register.ts`, `POST /`) -/

/-- The JSON body of a registration request (absent fields are `none`). -/
structure RegBody where
  event_id : Option String
  name : Option String
  email : Option String
  phone : Option String
  department : Option String
  year : Option String
  additional_info : Option String
deriving Repr, DecidableEq

/-- Outcome of the registration handler; `registered` carries the row
appended to the `registrations` table. -/
inductive RegOutcome where
  | validationFailed (details : List String)
  | invalidEmail
  | nameTooShort
  | invalidPhone
  | eventNotFound
  | registrationClosed
  | deadlinePassed
  | duplicate
  | registered (row : List String)
deriving Repr, DecidableEq

/-- The HTTP status the handler sends for each outcome. -/
def regStatusCode : RegOutcome → Nat
  | .validationFailed _ => 400
  | .invalidEmail => 400
  | .nameTooShort => 400
  | .invalidPhone => 400
  | .eventNotFound => 404
  | .registrationClosed => 400
  | .deadlinePassed => 400
  | .duplicate => 409
  | .registered _ => 200

/-- The row appended by an outcome, if any. -/
def appendedRow : RegOutcome → Option (List String)
  | .registered r => some r
  | _ => none

/-- `register.post('/')`: field validation, event lookup via `getEvents`,
the started/ended check (`eventDate <= now`), the one-hour registration
deadline (`now >= eventDate - 3600000` ms), the duplicate scan over all
non-header registration rows on the `(row[1], row[3]) = (event_id,
normalized email)` pair, and finally `addRegistration`, which appends
`[freshId, event_id, name, email, phone, department, year,
additional_info, nowIso]` with trimmed fields and a lowercased email.
`eventsRows`/`regRows` are the tables read from the store; `freshId`
models the generated `reg_<timestamp>_<random>` id. -/
def registerPost (dateVal : String → Int) (now : Int) (nowIso freshId : String)
    (body : RegBody) (eventsRows regRows : List (List String)) : RegOutcome :=
  let errs := [validateRequired body.event_id ("event_id"),
               validateRequired body.name ("name"),
               validateRequired body.email ("email")].filterMap id
  if errs.length > 0 then .validationFailed errs
  else if ! validateEmail (body.email.getD "") then .invalidEmail
  else if (jsTrim (body.name.getD "")).length < 2 then .nameTooShort
  else if (match body.phone with
           | some p => (jsTrim p != "") && ! validPhone (jsTrim p)
           | none => false) then .invalidPhone
  else
    let events := getEvents dateVal now nowIso eventsRows
    match events.find? (fun e => e.id == body.event_id.getD "") with
    | none => .eventNotFound
    | some event =>
      let eventDate := dateVal event.date_iso
      if eventDate ≤ now then .registrationClosed
      else if now ≥ eventDate - 3600000 then .deadlinePassed
      else
        let eventId := body.event_id.getD ""
        let email := jsLower (jsTrim (body.email.getD ""))
        if (regRows.drop 1).any (fun row =>
              row.get? 1 == some eventId && row.get? 3 == some email) then .duplicate
        else
          .registered [freshId, eventId, jsTrim (body.name.getD ""), email,
            (body.phone.map jsTrim).getD "", (body.department.map jsTrim).getD "",
            (body.year.map jsTrim).getD "", (body.additional_info.map jsTrim).getD "", nowIso]

/-! ## Chat route (`src/routes/chat.ts`, `POST /`) -/

/-- The JSON body sent back by the chat handler on success. -/
structure ChatResponse where
  html : String
  model_used : String
  timestamp : String
  source_links : List String
deriving Repr, DecidableEq

/-- The `ChatLog` record of `src/types.ts` (optional fields as written
to the `chat_logs` table). -/
structure ChatLogE where
  timestamp : String
  user_email : Option String
  user_name : Option String
  question : String
  model_used : String
  status : String
  raw_response : Option String
  final_answer_html : String
  source_links : Option String
  error : Option String
deriving Repr, DecidableEq

/-- Outcome of the chat handler: a 400 validation rejection, or the
HTTP-success response together with the chat-log entry written for the
exchange. -/
inductive ChatResult where
  | badRequest (error : String)
  | ok (response : ChatResponse) (log : ChatLogE)
deriving Repr, DecidableEq

/-- `body.x?.trim() || null`. -/
def optTrimOrNull (v : Option String) : Option String :=
  match v with
  | some s => if jsTrim s = "" then none else some (jsTrim s)
  | none => none

/-- JSON string-character escaping (quote, backslash, the common control
characters). -/
def jsonEscapeChar (c : Char) : List Char :=
  if c = '"' then ['\\', '"']
  else if c = '\\' then ['\\', '\\']
  else if c = '\n' then ['\\', 'n']
  else if c = '\t' then ['\\', 't']
  else if c = '\x0d' then ['\\', 'r']
  else [c]

/-- `JSON.stringify` of a string. -/
def jsonStr (s : String) : String :=
  "\"" ++ (⟨(s.data.map jsonEscapeChar).flatten⟩ : String) ++ "\""

/-- `JSON.stringify` of one search result (insertion key order). -/
def linkJson (l : SearchResult) : String :=
  "\x7b\"title\":" ++ jsonStr l.title ++ ",\"link\":" ++ jsonStr l.link ++
    ",\"snippet\":" ++ jsonStr l.snippet ++ "\x7d"

/-- Comma-join. -/
def joinComma : List String → String
  | [] => ""
  | [x] => x
  | x :: y :: xs => x ++ "," ++ joinComma (y :: xs)

/-- `JSON.stringify` of the source-link array. -/
def stringifyLinks (ls : List SearchResult) : String :=
  "[" ++ joinComma (ls.map linkJson) ++ "]"

/-- `chat.post('/')`: validation, then the AI call.  `AIService.answer`
never throws (every provider adapter and the context retrieval catch
their own errors), so the handler's success branch is always taken once
validation passes: the response is HTTP success and the log entry is
written with `status = success`, whatever model (including the `none`
sentinel) answered. -/
def chatPost (timestamp : String) (question user_email user_name : Option String)
    (searchResults : List SearchResult) (gemini groq openRouter : Option String) :
    ChatResult :=
  match validateRequired question ("question") with
  | some e => .badRequest e
  | none =>
    if (user_email.getD "" != "") && ! validateEmail (user_email.getD "") then
      .badRequest "Invalid email format"
    else
      let q := jsTrim (question.getD "")
      let ue := optTrimOrNull user_email
      let un := optTrimOrNull user_name
      if q.length > 500 then .badRequest "Question is too long (max 500 characters)"
      else
        let aiResult := answer searchResults gemini groq openRouter
        let htmlResponse := formatHTML aiResult.response aiResult.sourceLinks
        .ok ⟨htmlResponse, aiResult.model, timestamp, aiResult.sourceLinks.map (·.link)⟩
          ⟨timestamp, ue, un, q, aiResult.model, "success", some aiResult.response,
            htmlResponse, some (stringifyLinks aiResult.sourceLinks), none⟩

end IFHE


namespace IFHE

/-- Claim C1: the fallback orchestrator tries Gemini, Groq, OpenRouter in
that order: when provider 1 yields no usable answer and provider 2 yields
one, the model identifier is provider 2's and provider 3 is never
invoked; when all three fail the result is the fixed fallback text with
model identifier `none`. -/
theorem answer_fallback_order (s : List SearchResult) (g q o : Option String) :
    (∀ r, truthy g = false → q = some r → r ≠ "" →
      (answer s g q o).model = "deepseek-r1-distill-llama-70b" ∧
        "openrouter" ∉ (answer s g q o).invoked) ∧
    (truthy g = false → truthy q = false → truthy o = false →
      (answer s g q o).response = errorMessage ∧ (answer s g q o).model = "none") := by
  constructor
  · intro r hg hq hr
    subst hq
    have ht : truthy (some r) = true := by simpa [truthy] using hr
    simp [answer, hg, ht]
  · intro hg hq ho
    simp [answer, hg, hq, ho]

/-- Witness for C1 at concrete inputs: Gemini fails, Groq answers `hi`,
so the model is Groq's and OpenRouter is not invoked; and with all three
failing, the fallback text and the `none` sentinel come back. -/
theorem answer_fallback_order_witness :
    ((answer [] none (some ("hi")) (some ("z"))).model = "deepseek-r1-distill-llama-70b" ∧
      "openrouter" ∉ (answer [] none (some ("hi")) (some ("z"))).invoked) ∧
    ((answer [] none none none).response = errorMessage ∧
      (answer [] none none none).model = "none") :=
  ⟨(answer_fallback_order [] none (some ("hi")) (some ("z"))).1 ("hi") (by decide) rfl
      (by decide),
    (answer_fallback_order [] none none none).2 (by decide) (by decide) (by decide)⟩

end IFHE


namespace IFHE

/-- For a nonempty link list the links section is a nonempty string. -/
theorem linksSection_ne_empty (l : SearchResult) (ls : List SearchResult) :
    linksSection (l :: ls) ≠ "" := by
  simp only [linksSection]
  intro h
  have := congrArg String.data h
  simp [String.data_append] at this

/-- Claim C9: `formatHTML` is deterministic in its inputs; on
`"**x**\n*y*"` with no links the output contains `<strong>x</strong>`,
`<br>` and `<em>y</em>` and no useful-links section; for every input the
output is the converted body, then the links section exactly when the
link list is nonempty, then the fixed disclaimer. -/
theorem formatHTML_spec :
    (strContains (formatHTML ("**x**\n*y*") []) ("<strong>x</strong>") = true ∧
      strContains (formatHTML ("**x**\n*y*") []) ("<br>") = true ∧
      strContains (formatHTML ("**x**\n*y*") []) ("<em>y</em>") = true ∧
      strContains (formatHTML ("**x**\n*y*") []) ("Useful Links") = false) ∧
    (∀ t ls, formatHTML t ls = mdToHtml t ++ linksSection ls ++ disclaimer ∧
      (ls = [] → formatHTML t ls = mdToHtml t ++ disclaimer) ∧
      (ls ≠ [] → linksSection ls ≠ "")) := by
  refine ⟨by decide, fun t ls => ⟨rfl, ?_, ?_⟩⟩
  · rintro rfl
    simp [formatHTML, linksSection]
  · intro h
    match ls, h with
    | l :: ls, _ => exact linksSection_ne_empty l ls

/-- Witness for C9's conditional parts at concrete inputs. -/
theorem formatHTML_spec_witness :
    (formatHTML ("a") [] = mdToHtml ("a") ++ disclaimer) ∧
      linksSection [⟨"T", "L", "S"⟩] ≠ "" :=
  ⟨((formatHTML_spec.2 ("a") []).2.1 rfl),
    ((formatHTML_spec.2 ("a") [⟨"T", "L", "S"⟩]).2.2 (by decide))⟩

end IFHE


namespace IFHE

/-- Claim C10: when all providers fail, `answer` still returns normally,
so the chat handler takes its success branch: the HTTP response is a
success carrying `model_used = "none"`, and the chat-log entry records
`status = "success"`, `model_used = "none"` and the formatted fallback
message as the final answer HTML — never `status = "error"`. -/
theorem chat_exhausted_logs_success (ts : String) (question uem unm : Option String)
    (s : List SearchResult) (g q o : Option String)
    (hval : validateRequired question ("question") = none)
    (hmail : ((uem.getD "" != "") && ! validateEmail (uem.getD "")) = false)
    (hlen : (jsTrim (question.getD "")).length ≤ 500)
    (hg : truthy g = false) (hq : truthy q = false) (ho : truthy o = false) :
    chatPost ts question uem unm s g q o =
      .ok ⟨formatHTML errorMessage s, "none", ts, s.map (·.link)⟩
        ⟨ts, optTrimOrNull uem, optTrimOrNull unm, jsTrim (question.getD ""), "none",
          "success", some errorMessage, formatHTML errorMessage s,
          some (stringifyLinks s), none⟩ := by
  unfold chatPost
  rw [hval]
  simp only [hmail, Bool.false_eq_true, if_false]
  rw [if_neg (by omega)]
  simp [answer, hg, hq, ho]

/-- Witness for C10 at concrete inputs. -/
theorem chat_exhausted_logs_success_witness :
    chatPost ("TS") (some ("hello")) none none [] none none none =
      .ok ⟨formatHTML errorMessage [], "none", "TS", []⟩
        ⟨"TS", none, none, "hello", "none", "success", some errorMessage,
          formatHTML errorMessage [], some ("[]"), none⟩ := by
  have h := chat_exhausted_logs_success ("TS") (some ("hello")) none none [] none none none
    (by decide) (by decide) (by decide) (by decide) (by decide) (by decide)
  simpa [optTrimOrNull, jsTrim, stringifyLinks, joinComma] using h

end IFHE


namespace IFHE

/-- Claim C2: a `getAccessToken` call while the cached credential is
still within the safety margin returns the identical cached token with
no new exchange and leaves the cache unchanged; once the stored expiry
is in the past, the next call performs exactly one exchange and stores
the new credential with expiry `now + declaredLifetime*1000 - 60000`
(the 60-second safety margin, in milliseconds). -/
theorem tokenCache_spec (cfg : Bool) (st : TokenState) (now : Int)
    (exch : Except String (String × Int)) :
    (∀ tok e, st.accessToken = some tok → tok ≠ "" → st.tokenExpiry = some e → e ≠ 0 →
      now < e → getAccessToken cfg st now exch = ⟨.ok (tok, st), 0⟩) ∧
    (∀ e tok life, st.tokenExpiry = some e → e ≤ now → cfg = true →
      exch = .ok (tok, life) →
      getAccessToken cfg st now exch =
        ⟨.ok (tok, ⟨some tok, some (now + life * 1000 - 60000)⟩), 1⟩) := by
  constructor
  · intro tok e htok hne hexp hez hlt
    rw [getAccessToken.eq_def, if_pos]
    · rw [htok]; rfl
    · refine ⟨?_, ?_, ?_⟩ <;> simp [htok, hexp, hne, hez, hlt]
  · intro e tok life hexp hle hcfg hexch
    subst hcfg hexch
    rw [getAccessToken.eq_def, if_neg, if_neg (by simp)]
    rw [hexp]
    simp
    omega

/-- Witness for C2 at concrete inputs: a cache hit at `now = 50` against
expiry `100`, and a refresh at `now = 200` with a declared lifetime of
3600 seconds storing expiry `200 + 3600*1000 - 60000`. -/
theorem tokenCache_spec_witness :
    getAccessToken true ⟨some ("tok"), some 100⟩ 50 (.ok ("t2", 3600)) =
      ⟨.ok ("tok", ⟨some ("tok"), some 100⟩), 0⟩ ∧
    getAccessToken true ⟨some ("tok"), some 100⟩ 200 (.ok ("t2", 3600)) =
      ⟨.ok ("t2", ⟨some ("t2"), some (200 + 3600 * 1000 - 60000)⟩), 1⟩ :=
  ⟨(tokenCache_spec true ⟨some ("tok"), some 100⟩ 50 (.ok ("t2", 3600))).1 ("tok") 100
      rfl (by decide) rfl (by decide) (by decide),
    (tokenCache_spec true ⟨some ("tok"), some 100⟩ 200 (.ok ("t2", 3600))).2 100 ("t2")
      3600 rfl (by decide) rfl rfl⟩

end IFHE


namespace IFHE

/-- A single `getAccessToken` call performs at most one token exchange. -/
theorem getAccessToken_exchanges_le_one (cfg : Bool) (st : TokenState) (now : Int)
    (exch : Except String (String × Int)) :
    (getAccessToken cfg st now exch).exchanges ≤ 1 := by
  rw [getAccessToken.eq_def]
  split
  · exact Nat.zero_le 1
  · split
    · exact Nat.zero_le 1
    · split <;> exact Nat.le_refl 1

/-- Trace bounds for `appendRow`: at most one exchange, at most one API call. -/
theorem appendRow_bounds (sid creds : Bool) (st : TokenState) (now : Int)
    (exch : Except String (String × Int)) (api : String → Bool) :
    (appendRow sid creds st now exch api).exchanges ≤ 1 ∧
      (appendRow sid creds st now exch api).apiCalls ≤ 1 := by
  have h := getAccessToken_exchanges_le_one creds st now exch
  rw [appendRow.eq_def]
  split
  · exact ⟨Nat.zero_le 1, Nat.zero_le 1⟩
  · split
    next e n heq => rw [heq] at h; exact ⟨h, Nat.zero_le 1⟩
    next tok st1 n heq =>
      rw [heq] at h
      split <;> exact ⟨h, Nat.le_refl 1⟩

/-- Trace bounds for `readRange`. -/
theorem readRange_bounds (sid creds : Bool) (st : TokenState) (now : Int)
    (exch : Except String (String × Int))
    (apiD : String → Except String (Option (List (List String)))) :
    (readRange sid creds st now exch apiD).exchanges ≤ 1 ∧
      (readRange sid creds st now exch apiD).apiCalls ≤ 1 := by
  have h := getAccessToken_exchanges_le_one creds st now exch
  rw [readRange.eq_def]
  split
  · exact ⟨Nat.zero_le 1, Nat.zero_le 1⟩
  · split
    next e n heq => rw [heq] at h; exact ⟨h, Nat.zero_le 1⟩
    next tok st1 n heq =>
      rw [heq] at h
      split <;> exact ⟨h, Nat.le_refl 1⟩

/-- Trace bounds for `updateRange`. -/
theorem updateRange_bounds (sid creds : Bool) (st : TokenState) (now : Int)
    (exch : Except String (String × Int)) (api : String → Bool) :
    (updateRange sid creds st now exch api).exchanges ≤ 1 ∧
      (updateRange sid creds st now exch api).apiCalls ≤ 1 := by
  have h := getAccessToken_exchanges_le_one creds st now exch
  rw [updateRange.eq_def]
  split
  · exact ⟨Nat.zero_le 1, Nat.zero_le 1⟩
  · split
    next e n heq => rw [heq] at h; exact ⟨h, Nat.zero_le 1⟩
    next tok st1 n heq =>
      rw [heq] at h
      split <;> exact ⟨h, Nat.le_refl 1⟩

/-- Counterexample to claim C4: with a valid cached credential that the
Sheets API then rejects, `appendRow` makes exactly one API call and zero
further token exchanges before surfacing the failure — there is no
re-authentication and no retry, contradicting the claimed "exactly one
re-authentication attempt (one fresh token exchange followed by one
retry of the call)". -/
theorem appendRow_no_reauth_cex :
    appendRow true true ⟨some ("tok"), some 10⟩ 0 (.ok ("t2", 3600)) (fun _ => false) =
      ⟨.error "Failed to append row", ⟨some ("tok"), some 10⟩, 0, 1⟩ ∧
    ¬ ((appendRow true true ⟨some ("tok"), some 10⟩ 0 (.ok ("t2", 3600))
          (fun _ => false)).apiCalls = 2 ∧
        1 ≤ (appendRow true true ⟨some ("tok"), some 10⟩ 0 (.ok ("t2", 3600))
          (fun _ => false)).exchanges) :=
  ⟨rfl, fun h => absurd h.1 (by decide)⟩

/-- Amended claim C4: none of the three SheetStore operations retries:
each performs at most one token exchange and at most one API call, and
when the API rejects the presented credential the operation surfaces the
failure immediately after that single call with no further
re-authentication (the exchange count stays whatever the initial token
acquisition did). -/
theorem sheets_single_attempt (sid creds : Bool) (st : TokenState) (now : Int)
    (exch : Except String (String × Int)) (api : String → Bool)
    (apiD : String → Except String (Option (List (List String)))) :
    ((appendRow sid creds st now exch api).exchanges ≤ 1 ∧
      (appendRow sid creds st now exch api).apiCalls ≤ 1 ∧
      (readRange sid creds st now exch apiD).exchanges ≤ 1 ∧
      (readRange sid creds st now exch apiD).apiCalls ≤ 1 ∧
      (updateRange sid creds st now exch api).exchanges ≤ 1 ∧
      (updateRange sid creds st now exch api).apiCalls ≤ 1) ∧
    (∀ tok st1 n, sid = true →
      getAccessToken creds st now exch = ⟨.ok (tok, st1), n⟩ → api tok = false →
      appendRow sid creds st now exch api =
          ⟨.error "Failed to append row", st1, n, 1⟩ ∧
        updateRange sid creds st now exch api =
          ⟨.error "Failed to update range", st1, n, 1⟩) := by
  constructor
  · obtain ⟨a1, a2⟩ := appendRow_bounds sid creds st now exch api
    obtain ⟨r1, r2⟩ := readRange_bounds sid creds st now exch apiD
    obtain ⟨u1, u2⟩ := updateRange_bounds sid creds st now exch api
    exact ⟨a1, a2, r1, r2, u1, u2⟩
  · intro tok st1 n hsid heq hapi
    subst hsid
    constructor
    · rw [appendRow.eq_def, if_neg (by simp), heq]
      simp [hapi]
    · rw [updateRange.eq_def, if_neg (by simp), heq]
      simp [hapi]

/-- Witness for the amended C4 at concrete inputs. -/
theorem sheets_single_attempt_witness :
    appendRow true true ⟨some ("tok"), some 10⟩ 0 (.ok ("t2", 3600)) (fun _ => false) =
        ⟨.error "Failed to append row", ⟨some ("tok"), some 10⟩, 0, 1⟩ ∧
      updateRange true true ⟨some ("tok"), some 10⟩ 0 (.ok ("t2", 3600)) (fun _ => false) =
        ⟨.error "Failed to update range", ⟨some ("tok"), some 10⟩, 0, 1⟩ :=
  (sheets_single_attempt true true ⟨some ("tok"), some 10⟩ 0 (.ok ("t2", 3600))
    (fun _ => false) (fun _ => .ok none)).2 ("tok") ⟨some ("tok"), some 10⟩ 0 rfl rfl rfl

end IFHE


namespace IFHE

/-- `runCalls` distributes over list append. -/
theorem runCalls_append (N : Nat) (w : Int) (st : Option RateRecord) (xs ys : List Int) :
    runCalls N w st (xs ++ ys) =
      ((runCalls N w st xs).1 ++ (runCalls N w (runCalls N w st xs).2 ys).1,
        (runCalls N w (runCalls N w st xs).2 ys).2) := by
  induction xs generalizing st with
  | nil => simp [runCalls]
  | cons x xs ih => simp [runCalls, ih]

/-- Within one window (`k` further calls at time `t` against a record
whose reset time `t + w` has not passed), every call is admitted as long
as the counter stays within the maximum, and the counter just
accumulates. -/
theorem runCalls_in_window (N : Nat) (w t : Int) (hw : 0 ≤ w) :
    ∀ k c, c + k ≤ N →
      runCalls N w (some ⟨c, t + w⟩) (List.replicate k t) =
        (List.replicate k true, some ⟨c + k, t + w⟩) := by
  intro k
  induction k with
  | zero => intro c _; simp [runCalls]
  | succ k ih =>
    intro c hc
    rw [List.replicate_succ, runCalls]
    have hnr : ¬ t > t + w := by omega
    simp only [checkRateLimit, if_neg hnr]
    rw [ih (c + 1) (by omega)]
    have hle : c + 1 ≤ N := by omega
    simp [hle, List.replicate_succ]
    omega

end IFHE

namespace IFHE

/-- Claim C5: for a per-window maximum of `N = m+1`, a fresh identity's
first `N` calls in one window are allowed, the `(N+1)`-th call of that
window is rejected, and after the reset time has passed the next call is
allowed again (lazy reset), leaving a fresh window with count 1. -/
theorem rateLimiter_window (m : Nat) (t t' w : Int) (hw : 0 < w) (ht : t + w < t') :
    runCalls (m + 1) w none (List.replicate (m + 2) t ++ [t']) =
      (List.replicate (m + 1) true ++ [false, true], some ⟨1, t' + w⟩) := by
  have hfresh : checkRateLimit none t (m + 1) w = (true, ⟨1, t + w⟩) := by
    simp [checkRateLimit]
  have hover : checkRateLimit (some ⟨m + 1, t + w⟩) t (m + 1) w = (false, ⟨m + 2, t + w⟩) := by
    simp only [checkRateLimit]
    have h : (if t > t + w then RateRecord.mk 0 (t + w) else RateRecord.mk (m + 1) (t + w)) =
        RateRecord.mk (m + 1) (t + w) := if_neg (by omega)
    simp only [h]
    simp
  have hreset : checkRateLimit (some ⟨m + 2, t + w⟩) t' (m + 1) w = (true, ⟨1, t' + w⟩) := by
    simp only [checkRateLimit]
    have h : (if t' > t + w then RateRecord.mk 0 (t' + w) else RateRecord.mk (m + 2) (t + w)) =
        RateRecord.mk 0 (t' + w) := if_pos (by omega)
    simp only [h]
    simp
  have h2 : List.replicate (m + 2) t = t :: (List.replicate m t ++ [t]) := by
    rw [List.replicate_succ, List.replicate_succ']
  rw [h2, List.cons_append]
  rw [runCalls]
  simp only [hfresh]
  rw [List.append_assoc, runCalls_append]
  rw [runCalls_in_window (m + 1) w t (by omega) m 1 (by omega)]
  simp only
  rw [runCalls_append]
  rw [runCalls]
  simp only [show (1 : Nat) + m = m + 1 from by omega, hover]
  rw [runCalls, runCalls]
  simp only [hreset]
  rw [runCalls]
  simp [List.replicate_succ]

end IFHE

namespace IFHE

/-- Witness for C5 at concrete inputs: maximum 3 per 60-second window,
four calls at `t = 0` then one at `t = 70000`. -/
theorem rateLimiter_window_witness :
    runCalls 3 60000 none (List.replicate 4 0 ++ [70000]) =
      (List.replicate 3 true ++ [false, true], some ⟨1, 70000 + 60000⟩) :=
  rateLimiter_window 2 0 70000 60000 (by decide) (by decide)

end IFHE


namespace IFHE

/-- Once field validation passes and the event is found, `registerPost`
reduces to the date checks, the duplicate scan, and the append. -/
theorem registerPost_core (dateVal : String → Int) (now : Int) (nowIso freshId : String)
    (body : RegBody) (eventsRows regRows : List (List String)) (ev : Event)
    (h1 : validateRequired body.event_id ("event_id") = none)
    (h2 : validateRequired body.name ("name") = none)
    (h3 : validateRequired body.email ("email") = none)
    (h4 : validateEmail (body.email.getD "") = true)
    (h5 : 2 ≤ (jsTrim (body.name.getD "")).length)
    (h6 : (match body.phone with
           | some p => (jsTrim p != "") && ! validPhone (jsTrim p)
           | none => false) = false)
    (h7 : (getEvents dateVal now nowIso eventsRows).find?
        (fun e => e.id == body.event_id.getD "") = some ev) :
    registerPost dateVal now nowIso freshId body eventsRows regRows =
      (if dateVal ev.date_iso ≤ now then .registrationClosed
       else if now ≥ dateVal ev.date_iso - 3600000 then .deadlinePassed
       else if (regRows.drop 1).any (fun row =>
           row.get? 1 == some (body.event_id.getD "") &&
             row.get? 3 == some (jsLower (jsTrim (body.email.getD "")))) then .duplicate
       else .registered [freshId, body.event_id.getD "", jsTrim (body.name.getD ""),
         jsLower (jsTrim (body.email.getD "")), (body.phone.map jsTrim).getD "",
         (body.department.map jsTrim).getD "", (body.year.map jsTrim).getD "",
         (body.additional_info.map jsTrim).getD "", nowIso]) := by
  rw [registerPost.eq_def]
  simp only [h1, h2, h3, h4, h6, List.filterMap, h7]
  rw [if_neg (by simp), if_neg (by simp), if_neg (by omega), if_neg (by simp)]

end IFHE

namespace IFHE

/-- Claim C6: with a valid submission for a found event, the handler
rejects whenever the event date is at most one hour away (as started or
ended, or past the one-hour registration deadline), accepts (appends a
registration) only when the event is strictly more than one hour in the
future, and does accept then absent a duplicate. -/
theorem registration_cutoff (dateVal : String → Int) (now : Int) (nowIso freshId : String)
    (body : RegBody) (eventsRows regRows : List (List String)) (ev : Event)
    (h1 : validateRequired body.event_id ("event_id") = none)
    (h2 : validateRequired body.name ("name") = none)
    (h3 : validateRequired body.email ("email") = none)
    (h4 : validateEmail (body.email.getD "") = true)
    (h5 : 2 ≤ (jsTrim (body.name.getD "")).length)
    (h6 : (match body.phone with
           | some p => (jsTrim p != "") && ! validPhone (jsTrim p)
           | none => false) = false)
    (h7 : (getEvents dateVal now nowIso eventsRows).find?
        (fun e => e.id == body.event_id.getD "") = some ev) :
    (dateVal ev.date_iso ≤ now + 3600000 →
      registerPost dateVal now nowIso freshId body eventsRows regRows = .registrationClosed ∨
        registerPost dateVal now nowIso freshId body eventsRows regRows = .deadlinePassed) ∧
    (now + 3600000 < dateVal ev.date_iso →
      (regRows.drop 1).any (fun row =>
          row.get? 1 == some (body.event_id.getD "") &&
            row.get? 3 == some (jsLower (jsTrim (body.email.getD "")))) = false →
      registerPost dateVal now nowIso freshId body eventsRows regRows =
        .registered [freshId, body.event_id.getD "", jsTrim (body.name.getD ""),
          jsLower (jsTrim (body.email.getD "")), (body.phone.map jsTrim).getD "",
          (body.department.map jsTrim).getD "", (body.year.map jsTrim).getD "",
          (body.additional_info.map jsTrim).getD "", nowIso]) ∧
    (∀ r, registerPost dateVal now nowIso freshId body eventsRows regRows = .registered r →
      now + 3600000 < dateVal ev.date_iso) := by
  rw [registerPost_core dateVal now nowIso freshId body eventsRows regRows ev
    h1 h2 h3 h4 h5 h6 h7]
  refine ⟨?_, ?_, ?_⟩
  · intro hcut
    by_cases hc : dateVal ev.date_iso ≤ now
    · left; rw [if_pos hc]
    · right; rw [if_neg hc, if_pos (by omega)]
  · intro hfar hdup
    rw [if_neg (by omega), if_neg (by omega), hdup]
    rfl
  · intro r hr
    by_contra hle
    rw [if_neg] at hr
    · rw [if_pos (by omega)] at hr
      exact RegOutcome.noConfusion hr
    · intro hc
      rw [if_pos hc] at hr
      exact RegOutcome.noConfusion hr

/-- Witness for C6 at concrete inputs: an event 30 minutes ahead is
rejected, one 2 hours ahead is accepted. -/
theorem registration_cutoff_witness :
    (registerPost (fun _ => 1800000) 0 ("NOW") ("RID")
        ⟨some ("E1"), some ("Al"), some ("a@b.c"), none, none, none, none⟩
        [["id"], ["E1", "T", "D", "X", "L", "R", "TRUE", "C"]] [["h"]] =
          .registrationClosed ∨
      registerPost (fun _ => 1800000) 0 ("NOW") ("RID")
        ⟨some ("E1"), some ("Al"), some ("a@b.c"), none, none, none, none⟩
        [["id"], ["E1", "T", "D", "X", "L", "R", "TRUE", "C"]] [["h"]] =
          .deadlinePassed) ∧
    registerPost (fun _ => 7200000) 0 ("NOW") ("RID")
        ⟨some ("E1"), some ("Al"), some ("a@b.c"), none, none, none, none⟩
        [["id"], ["E1", "T", "D", "X", "L", "R", "TRUE", "C"]] [["h"]] =
      .registered ["RID", "E1", "Al", "a@b.c", "", "", "", "", "NOW"] :=
  ⟨(registration_cutoff (fun _ => 1800000) 0 ("NOW") ("RID")
      ⟨some ("E1"), some ("Al"), some ("a@b.c"), none, none, none, none⟩
      [["id"], ["E1", "T", "D", "X", "L", "R", "TRUE", "C"]] [["h"]]
      ⟨"E1", "T", "D", "X", "L", "R", true, "C"⟩
      (by decide) (by decide) (by decide) (by decide) (by decide) (by decide)
      (by decide)).1 (by decide),
    (registration_cutoff (fun _ => 7200000) 0 ("NOW") ("RID")
      ⟨some ("E1"), some ("Al"), some ("a@b.c"), none, none, none, none⟩
      [["id"], ["E1", "T", "D", "X", "L", "R", "TRUE", "C"]] [["h"]]
      ⟨"E1", "T", "D", "X", "L", "R", true, "C"⟩
      (by decide) (by decide) (by decide) (by decide) (by decide) (by decide)
      (by decide)).2.1 (by decide) (by decide)⟩

end IFHE

namespace IFHE

/-- Claim C7: duplicate detection is a linear scan of all non-header
registration rows on the `(event_id, email)` pair: a pair already
present in some row yields the 409 `duplicate` outcome with no row
appended; a pair present in no row passes the check and the registration
row is appended.  The scan hits exactly when some non-header row carries
the pair. -/
theorem duplicate_scan (dateVal : String → Int) (now : Int) (nowIso freshId : String)
    (body : RegBody) (eventsRows regRows : List (List String)) (ev : Event)
    (h1 : validateRequired body.event_id ("event_id") = none)
    (h2 : validateRequired body.name ("name") = none)
    (h3 : validateRequired body.email ("email") = none)
    (h4 : validateEmail (body.email.getD "") = true)
    (h5 : 2 ≤ (jsTrim (body.name.getD "")).length)
    (h6 : (match body.phone with
           | some p => (jsTrim p != "") && ! validPhone (jsTrim p)
           | none => false) = false)
    (h7 : (getEvents dateVal now nowIso eventsRows).find?
        (fun e => e.id == body.event_id.getD "") = some ev)
    (htime : now + 3600000 < dateVal ev.date_iso) :
    ((regRows.drop 1).any (fun row =>
        row.get? 1 == some (body.event_id.getD "") &&
          row.get? 3 == some (jsLower (jsTrim (body.email.getD "")))) = true →
      registerPost dateVal now nowIso freshId body eventsRows regRows = .duplicate ∧
        regStatusCode (registerPost dateVal now nowIso freshId body eventsRows regRows) = 409 ∧
        appendedRow (registerPost dateVal now nowIso freshId body eventsRows regRows) = none) ∧
    ((regRows.drop 1).any (fun row =>
        row.get? 1 == some (body.event_id.getD "") &&
          row.get? 3 == some (jsLower (jsTrim (body.email.getD "")))) = false →
      appendedRow (registerPost dateVal now nowIso freshId body eventsRows regRows) =
        some [freshId, body.event_id.getD "", jsTrim (body.name.getD ""),
          jsLower (jsTrim (body.email.getD "")), (body.phone.map jsTrim).getD "",
          (body.department.map jsTrim).getD "", (body.year.map jsTrim).getD "",
          (body.additional_info.map jsTrim).getD "", nowIso]) ∧
    ((regRows.drop 1).any (fun row =>
        row.get? 1 == some (body.event_id.getD "") &&
          row.get? 3 == some (jsLower (jsTrim (body.email.getD "")))) = true ↔
      ∃ row ∈ regRows.drop 1, row.get? 1 = some (body.event_id.getD "") ∧
        row.get? 3 = some (jsLower (jsTrim (body.email.getD "")))) := by
  rw [registerPost_core dateVal now nowIso freshId body eventsRows regRows ev
    h1 h2 h3 h4 h5 h6 h7]
  rw [if_neg (by omega), if_neg (by omega)]
  refine ⟨?_, ?_, ?_⟩
  · intro hdup
    rw [if_pos hdup]
    exact ⟨rfl, rfl, rfl⟩
  · intro hdup
    rw [hdup]
    rfl
  · simp [List.any_eq_true, Bool.and_eq_true, beq_iff_eq]

/-- Witness for C7 at concrete inputs: a stored `(E1, a@b.c)` row makes
the second submission a 409 duplicate; an empty table lets it through
and the row is appended. -/
theorem duplicate_scan_witness :
    (registerPost (fun _ => 7200000) 0 ("NOW") ("RID")
        ⟨some ("E1"), some ("Al"), some ("a@b.c"), none, none, none, none⟩
        [["id"], ["E1", "T", "D", "X", "L", "R", "TRUE", "C"]]
        [["h"], ["r1", "E1", "Bo", "a@b.c", "", "", "", "", "t"]] = .duplicate ∧
      regStatusCode (registerPost (fun _ => 7200000) 0 ("NOW") ("RID")
        ⟨some ("E1"), some ("Al"), some ("a@b.c"), none, none, none, none⟩
        [["id"], ["E1", "T", "D", "X", "L", "R", "TRUE", "C"]]
        [["h"], ["r1", "E1", "Bo", "a@b.c", "", "", "", "", "t"]]) = 409 ∧
      appendedRow (registerPost (fun _ => 7200000) 0 ("NOW") ("RID")
        ⟨some ("E1"), some ("Al"), some ("a@b.c"), none, none, none, none⟩
        [["id"], ["E1", "T", "D", "X", "L", "R", "TRUE", "C"]]
        [["h"], ["r1", "E1", "Bo", "a@b.c", "", "", "", "", "t"]]) = none) ∧
    appendedRow (registerPost (fun _ => 7200000) 0 ("NOW") ("RID")
        ⟨some ("E1"), some ("Al"), some ("a@b.c"), none, none, none, none⟩
        [["id"], ["E1", "T", "D", "X", "L", "R", "TRUE", "C"]] [["h"]]) =
      some ["RID", "E1", "Al", "a@b.c", "", "", "", "", "NOW"] :=
  ⟨(duplicate_scan (fun _ => 7200000) 0 ("NOW") ("RID")
      ⟨some ("E1"), some ("Al"), some ("a@b.c"), none, none, none, none⟩
      [["id"], ["E1", "T", "D", "X", "L", "R", "TRUE", "C"]]
      [["h"], ["r1", "E1", "Bo", "a@b.c", "", "", "", "", "t"]]
      ⟨"E1", "T", "D", "X", "L", "R", true, "C"⟩
      (by decide) (by decide) (by decide) (by decide) (by decide) (by decide)
      (by decide) (by decide)).1 (by decide),
    (duplicate_scan (fun _ => 7200000) 0 ("NOW") ("RID")
      ⟨some ("E1"), some ("Al"), some ("a@b.c"), none, none, none, none⟩
      [["id"], ["E1", "T", "D", "X", "L", "R", "TRUE", "C"]] [["h"]]
      ⟨"E1", "T", "D", "X", "L", "R", true, "C"⟩
      (by decide) (by decide) (by decide) (by decide) (by decide) (by decide)
      (by decide) (by decide)).2.1 (by decide)⟩

end IFHE


namespace IFHE

/-- Counterexample to claim C8: on a visible, future-dated row whose id
cell is empty, `getEvents` does not map missing/empty cells to the empty
string as claimed — the id defaults to `event_<rowIndex>` — so the
returned list differs from the claimed positional mapping. -/
theorem getEvents_default_cex :
    getEvents (fun _ => 5) 0 ("NOW") [["id"], ["", "T", "D", "X", "L", "R", "TRUE", "C"]] =
        [rowToEvent ("NOW") 1 ["", "T", "D", "X", "L", "R", "TRUE", "C"]] ∧
      (rowToEvent ("NOW") 1 ["", "T", "D", "X", "L", "R", "TRUE", "C"]).id = "event_1" ∧
      (rowToEventSpec ["", "T", "D", "X", "L", "R", "TRUE", "C"]).id = "" ∧
      getEvents (fun _ => 5) 0 ("NOW") [["id"], ["", "T", "D", "X", "L", "R", "TRUE", "C"]] ≠
        [rowToEventSpec ["", "T", "D", "X", "L", "R", "TRUE", "C"]] := by
  decide

/-- Amended claim C8: for every successfully read table, `getEvents`
returns exactly the nonempty non-header rows that are visible and dated
no earlier than now, mapped positionally (missing cells default to the
empty string / false, except that an absent or empty id defaults to
`event_<rowIndex>` and an absent or empty created_at defaults to the
current timestamp), sorted ascending by date; hidden or past rows never
appear. -/
theorem getEvents_spec (dateVal : String → Int) (now : Int) (nowIso : String)
    (rows : List (List String)) :
    (∀ e ∈ getEvents dateVal now nowIso rows, e.visible = true ∧ now ≤ dateVal e.date_iso) ∧
    (getEvents dateVal now nowIso rows).Perm (eventCandidates dateVal now nowIso rows) ∧
    (getEvents dateVal now nowIso rows).Sorted
      (fun a b => dateVal a.date_iso ≤ dateVal b.date_iso) := by
  have hperm : (getEvents dateVal now nowIso rows).Perm
      (eventCandidates dateVal now nowIso rows) := by
    rw [getEvents]
    split
    · next hle =>
      have : rows.enum.drop 1 = [] :=
        List.drop_eq_nil_of_le (by simpa using hle)
      simp [eventCandidates, this]
    · exact List.perm_insertionSort _ _
  refine ⟨?_, hperm, ?_⟩
  · intro e he
    have hc : e ∈ eventCandidates dateVal now nowIso rows := hperm.mem_iff.mp he
    simp only [eventCandidates, List.mem_filterMap] at hc
    obtain ⟨p, _, hp⟩ := hc
    by_cases hlen : p.2.length = 0
    · simp [hlen] at hp
    · rw [if_neg hlen] at hp
      by_cases hcond : (rowToEvent nowIso p.1 p.2).visible ∧
          now ≤ dateVal (rowToEvent nowIso p.1 p.2).date_iso
      · have : rowToEvent nowIso p.1 p.2 = e := by
          rw [if_pos (by simp [hcond.1, hcond.2])] at hp
          exact Option.some.inj hp
        rw [← this]
        exact ⟨hcond.1, hcond.2⟩
      · exfalso
        rw [if_neg ?_] at hp
        · exact Option.noConfusion hp
        · intro hb
          obtain ⟨hb1, hb2⟩ := (Bool.and_eq_true _ _).mp hb
          exact hcond ⟨hb1, of_decide_eq_true hb2⟩
  · rw [getEvents]
    split
    · exact List.sorted_nil
    · letI : IsTotal Event (fun a b => dateVal a.date_iso ≤ dateVal b.date_iso) :=
        ⟨fun a b => Int.le_total _ _⟩
      letI : IsTrans Event (fun a b => dateVal a.date_iso ≤ dateVal b.date_iso) :=
        ⟨fun a b c => le_trans⟩
      exact List.sorted_insertionSort _ _

/-- Witness for the amended C8's membership conjunct at a concrete table
and member. -/
theorem getEvents_spec_witness :
    (Event.mk ("event_1") ("T") ("D") ("X") ("L") ("R") true ("C")).visible = true ∧
      (0 : Int) ≤ (fun _ => (5 : Int)) ("X") :=
  (getEvents_spec (fun _ => 5) 0 ("NOW")
    [["id"], ["", "T", "D", "X", "L", "R", "TRUE", "C"]]).1
    (Event.mk ("event_1") ("T") ("D") ("X") ("L") ("R") true ("C")) (by decide)

end IFHE


namespace IFHE

/-- Every character `b64Char` produces is in the base64url alphabet. -/
theorem b64Char_mem (n : Nat) : b64Char n ∈ b64Alphabet := by
  rw [b64Char, List.getD]
  rcases h : b64Alphabet.get? n with _ | c
  · decide
  · exact List.get?_mem h

/-- No character of the base64url alphabet is a dot, `+`, `/` or `=`. -/
theorem b64Alphabet_url_safe :
    ∀ c ∈ b64Alphabet, c ≠ '.' ∧ c ≠ '+' ∧ c ≠ '/' ∧ c ≠ '=' := by decide

/-- Every character of an encoded string is in the base64url alphabet. -/
theorem encode_mem : ∀ (l : List Nat), ∀ c ∈ base64urlEncode l, c ∈ b64Alphabet
  | [] => by simp [base64urlEncode]
  | [a] => by
    intro c hc
    simp only [base64urlEncode, List.mem_cons, List.not_mem_nil, or_false] at hc
    rcases hc with rfl | rfl <;> exact b64Char_mem _
  | [a, b] => by
    intro c hc
    simp only [base64urlEncode, List.mem_cons, List.not_mem_nil, or_false] at hc
    rcases hc with rfl | rfl | rfl <;> exact b64Char_mem _
  | a :: b :: d :: rest => by
    intro c hc
    simp only [base64urlEncode, List.mem_cons] at hc
    rcases hc with rfl | rfl | rfl | rfl | hc
    · exact b64Char_mem _
    · exact b64Char_mem _
    · exact b64Char_mem _
    · exact b64Char_mem _
    · exact encode_mem rest c hc

/-- `b64Value` inverts `b64Char` on the 6-bit range. -/
theorem b64Value_b64Char : ∀ n < 64, b64Value (b64Char n) = n := by decide

/-- Decoding inverts encoding on byte sequences. -/
theorem decode_encode : ∀ l : List Nat, (∀ x ∈ l, x < 256) →
    base64urlDecode (base64urlEncode l) = l
  | [], _ => rfl
  | [a], h => by
    have ha : a < 256 := h a (by simp)
    simp only [base64urlEncode, base64urlDecode]
    rw [b64Value_b64Char _ (by omega), b64Value_b64Char _ (by omega)]
    have : a / 4 * 4 + a % 4 * 16 / 16 = a := by omega
    rw [this]
  | [a, b], h => by
    have ha : a < 256 := h a (by simp)
    have hb : b < 256 := h b (by simp)
    simp only [base64urlEncode, base64urlDecode]
    rw [b64Value_b64Char _ (by omega), b64Value_b64Char _ (by omega),
      b64Value_b64Char _ (by omega)]
    have h1 : a / 4 * 4 + (a % 4 * 16 + b / 16) / 16 = a := by omega
    have h2 : (a % 4 * 16 + b / 16) % 16 * 16 + b % 16 * 4 / 4 = b := by omega
    rw [h1, h2]
  | a :: b :: d :: rest, h => by
    have ha : a < 256 := h a (by simp)
    have hb : b < 256 := h b (by simp)
    have hd : d < 256 := h d (by simp)
    simp only [base64urlEncode, base64urlDecode]
    rw [b64Value_b64Char _ (by omega), b64Value_b64Char _ (by omega),
      b64Value_b64Char _ (by omega), b64Value_b64Char _ (by omega)]
    rw [decode_encode rest (fun x hx => h x (by simp [hx]))]
    have h1 : a / 4 * 4 + (a % 4 * 16 + b / 16) / 16 = a := by omega
    have h2 : (a % 4 * 16 + b / 16) % 16 * 16 + (b % 16 * 4 + d / 64) / 4 = b := by omega
    have h3 : (b % 16 * 4 + d / 64) % 4 * 64 + d % 64 = d := by omega
    rw [h1, h2, h3]

end IFHE

namespace IFHE

/-- Digit characters are ASCII. -/
theorem digitChar_toNat_lt (n : Nat) : (digitChar n).toNat < 128 := by
  rw [digitChar]
  have h10 : n % 10 < 10 := Nat.mod_lt _ (by omega)
  generalize n % 10 = m at h10 ⊢
  interval_cases m <;> decide

/-- Every character of a rendered decimal is ASCII. -/
theorem natDecimalAux_toNat_lt : ∀ (fuel n : Nat), ∀ c ∈ natDecimalAux fuel n, c.toNat < 128
  | 0, n => by simp [natDecimalAux]
  | fuel + 1, n => by
    intro c hc
    rw [natDecimalAux] at hc
    by_cases h : n < 10
    · rw [if_pos h] at hc
      simp only [List.mem_cons, List.not_mem_nil, or_false] at hc
      subst hc
      exact digitChar_toNat_lt n
    · rw [if_neg h] at hc
      rcases List.mem_append.mp hc with hc | hc
      · exact natDecimalAux_toNat_lt fuel (n / 10) c hc
      · simp only [List.mem_cons, List.not_mem_nil, or_false] at hc
        subst hc
        exact digitChar_toNat_lt _

/-- With an ASCII issuer, every character of the JWT payload JSON is
ASCII. -/
theorem payloadJSON_toNat_lt (email : String) (now : Nat)
    (h : ∀ c ∈ email.data, c.toNat < 128) :
    ∀ c ∈ (payloadJSON email now).data, c.toNat < 128 := by
  intro c hc
  have hd1 : (natDecimal (now + 3600)).data = natDecimalAux (now + 3600 + 1) (now + 3600) := rfl
  have hd2 : (natDecimal now).data = natDecimalAux (now + 1) now := rfl
  simp only [payloadJSON, String.data_append, List.mem_append, hd1, hd2] at hc
  rcases hc with ((((((hc | hc) | hc) | hc) | hc) | hc) | hc)
  · exact (by decide : ∀ x ∈ ("\x7b\"iss\":\"" : String).data, x.toNat < 128) c hc
  · exact h c hc
  · exact (by decide :
      ∀ x ∈ (("\",\"scope\":\"https://www.googleapis.com/auth/spreadsheets\",\"aud\":\"https://oauth2.googleapis.com/token\",\"exp\":") : String).data,
        x.toNat < 128) c hc
  · exact natDecimalAux_toNat_lt _ _ c hc
  · exact (by decide : ∀ x ∈ ((",\"iat\":") : String).data, x.toNat < 128) c hc
  · exact natDecimalAux_toNat_lt _ _ c hc
  · exact (by decide : ∀ x ∈ (("\x7d") : String).data, x.toNat < 128) c hc

end IFHE

namespace IFHE

/-- Claim C3: for every issuer email (printable ASCII, no JSON escaping
needed) and every signature the key produces, `createJWT` yields exactly
three dot-separated segments, each drawn from the base64url alphabet
(which contains no `.`, `+`, `/` or `=`), and base64url-decoding the
payload segment yields exactly the JSON carrying the supplied issuer,
the fixed spreadsheets scope, the fixed token-endpoint audience,
`iat = now` and `exp = now + 3600`. -/
theorem jwt_three_segments (email : String) (now : Nat) (signature : List Nat)
    (hemail : ∀ c ∈ email.data, 32 ≤ c.toNat ∧ c.toNat < 128 ∧ c ≠ '"' ∧ c ≠ '\\') :
    ∃ s1 s2 s3 : String,
      createJWT email now signature = s1 ++ "." ++ s2 ++ "." ++ s3 ∧
      (∀ c ∈ s1.data, c ∈ b64Alphabet) ∧
      (∀ c ∈ s2.data, c ∈ b64Alphabet) ∧
      (∀ c ∈ s3.data, c ∈ b64Alphabet) ∧
      (∀ c ∈ b64Alphabet, c ≠ '.' ∧ c ≠ '+' ∧ c ≠ '/' ∧ c ≠ '=') ∧
      base64urlDecode s2.data =
        asciiBytes ("\x7b\"iss\":\"" ++ email ++
          "\",\"scope\":\"https://www.googleapis.com/auth/spreadsheets\",\"aud\":\"https://oauth2.googleapis.com/token\",\"exp\":" ++
          natDecimal (now + 3600) ++ ",\"iat\":" ++ natDecimal now ++ "\x7d") := by
  refine ⟨⟨base64urlEncode (asciiBytes headerJSON)⟩,
    ⟨base64urlEncode (asciiBytes (payloadJSON email now))⟩,
    ⟨base64urlEncode signature⟩, rfl, ?_, ?_, ?_, b64Alphabet_url_safe, ?_⟩
  · exact fun c hc => encode_mem _ c hc
  · exact fun c hc => encode_mem _ c hc
  · exact fun c hc => encode_mem _ c hc
  · show base64urlDecode (base64urlEncode (asciiBytes (payloadJSON email now))) = _
    rw [decode_encode (asciiBytes (payloadJSON email now)) ?_]
    · rfl
    · intro x hx
      simp only [asciiBytes, List.mem_map] at hx
      obtain ⟨c, hc, rfl⟩ := hx
      have := payloadJSON_toNat_lt email now (fun c hc => (hemail c hc).2.1) c hc
      omega

/-- Witness for C3 at a concrete issuer, instant and signature. -/
theorem jwt_three_segments_witness :
    ∃ s1 s2 s3 : String,
      createJWT ("svc@example.com") 1000 [0, 255, 7] = s1 ++ "." ++ s2 ++ "." ++ s3 ∧
      (∀ c ∈ s1.data, c ∈ b64Alphabet) ∧
      (∀ c ∈ s2.data, c ∈ b64Alphabet) ∧
      (∀ c ∈ s3.data, c ∈ b64Alphabet) ∧
      (∀ c ∈ b64Alphabet, c ≠ '.' ∧ c ≠ '+' ∧ c ≠ '/' ∧ c ≠ '=') ∧
      base64urlDecode s2.data =
        asciiBytes ("\x7b\"iss\":\"" ++ ("svc@example.com") ++
          "\",\"scope\":\"https://www.googleapis.com/auth/spreadsheets\",\"aud\":\"https://oauth2.googleapis.com/token\",\"exp\":" ++
          natDecimal (1000 + 3600) ++ ",\"iat\":" ++ natDecimal 1000 ++ "\x7d") :=
  jwt_three_segments ("svc@example.com") 1000 [0, 255, 7] (by decide)

end IFHE
